/-
  Verification of the extraction-and-deduplication pipeline of the
  `willkommen-in-magdeburg` news monitor (`.github/scripts/monitor_news.py`).

  The Python script is shallowly embedded below.  Conventions:
  * Python dicts for incidents and source citations become structures
    (`Incident`, `Source`); JSON incidents are assumed to carry all fields.
  * In-place mutation of the loaded ledger (`current_data['incidents']`)
    becomes explicit state passing: `is_duplicate` returns the (possibly
    merged) ledger next to its boolean.
  * The two OpenAI chat calls are external oracles, passed in as functions
    returning `Except String _`: `Except.error` models a raised API
    exception, `Except.ok` the response text.  `json.loads` of the
    extraction response is likewise external and is modelled by the
    `parsed` field of `LlmReply`.
  * `str.strip`/`str.lower` are modelled by `pyStrip`/`pyLower`, written
    as structural recursion over character lists so that concrete inputs
    evaluate inside proofs (the strings compared against, "null" and
    "true", are ASCII).
  * Network effects of `create_pull_request` (branch creation, file PUT,
    PR POST) are abstracted to the value proposed: the content it uploads
    is read back from the persisted file `data/incidents.json`, which the
    script never writes locally.
-/
import Mathlib

namespace MonitorNews

/-- A source citation dict `{url, name}` as produced by `parse_with_llm`
and stored in `data/incidents.json`. -/
structure Source where
  url : String
  name : String
deriving DecidableEq, Repr

/-- An incident record dict as produced by `parse_with_llm` and stored in
the ledger (`data/incidents.json` → `incidents`). -/
structure Incident where
  date : String
  location : String
  description : String
  type : String
  status : String
  sources : List Source
deriving DecidableEq, Repr

/-- The persisted ledger document `data/incidents.json`:
`{incidents: [...], lastUpdated: ...}`. -/
structure LedgerDoc where
  incidents : List Incident
  lastUpdated : String
deriving DecidableEq, Repr

/-- The URLs of a record's source citations. -/
def urls (inc : Incident) : List String :=
  inc.sources.map Source.url

/-- ASCII whitespace, as relevant to the stripped model responses. -/
def isWsChar (c : Char) : Bool :=
  c == ' ' || c == '\t' || c == '\n' || c == '\r'

/-- Python's `str.strip()` (on the ASCII whitespace relevant here),
defined by structural recursion over the character list so that concrete
inputs evaluate inside proofs. -/
def pyStrip (s : String) : String :=
  ⟨((s.data.dropWhile isWsChar).reverse.dropWhile isWsChar).reverse⟩

/-- Python's `str.lower()` (ASCII; the strings compared against, "null"
and "true", are ASCII), likewise structurally recursive. -/
def pyLower (s : String) : String :=
  ⟨s.data.map Char.toLower⟩

/-- Lexicographic order on character lists. -/
def charsLt : List Char → List Char → Bool
  | [], [] => false
  | [], _ :: _ => true
  | _ :: _, [] => false
  | c :: cs, d :: ds => c < d || (c == d && charsLt cs ds)

/-- Strict order on ISO `YYYY-MM-DD` date strings: lexicographic order,
which on this format coincides with calendar order. -/
def dateBefore (a b : String) : Bool :=
  charsLt a.data b.data

/-- Test `existing_urls & new_urls` nonempty: some citation URL is shared
between an existing record and the new incident (monitor_news.py:269-271). -/
def urlOverlap (existing newInc : Incident) : Bool :=
  (urls existing).any (fun u => (urls newInc).contains u)

/-- The semantic-comparison oracle: one chat call per candidate taking the
whole batch of same-date incidents, returning the raw response text or an
API exception (monitor_news.py:298-305). -/
def CompareOracle : Type :=
  Incident → List Incident → Except String String

/-- Test `response.choices[0].message.content.strip().lower() == "true"`
(monitor_news.py:307). -/
def respIsTrue (resp : String) : Bool :=
  pyLower (pyStrip resp) == "true"

/-- The in-place source merge performed on one same-date record when the
comparison answered "true": `existing['sources'].extend([s for s in
new_incident['sources'] if s['url'] not in existing_urls])`
(monitor_news.py:312-316). -/
def mergeInto (newInc existing : Incident) : Incident :=
  let existingUrls := urls existing
  { existing with
    sources := existing.sources ++
      newInc.sources.filter (fun s => !(existingUrls.contains s.url)) }

/-- The whole merge loop `for existing in same_date_incidents: ...`
(monitor_news.py:311-316): every record whose date equals the candidate's
is merged in place, the others are left as they are. -/
def mergeSameDate (newInc : Incident) (ledger : List Incident) :
    List Incident :=
  ledger.map (fun existing =>
    if existing.date == newInc.date then mergeInto newInc existing
    else existing)

/-- Embedding of `is_duplicate(new_incident, existing_incidents)`
(monitor_news.py:265-319).
Returns the boolean together with the ledger as left after any in-place
merges; `Except.error` models an exception raised by the comparison call. -/
def is_duplicate (oracle : CompareOracle) (newInc : Incident)
    (ledger : List Incident) : Except String (Bool × List Incident) :=
  -- First check exact URL matches (lines 268-272): return True, no merge.
  if ledger.any (fun existing => urlOverlap existing newInc) then
    Except.ok (true, ledger)
  else
    -- Same-date incidents (lines 275-278).
    let sameDate := ledger.filter (fun inc => inc.date == newInc.date)
    if sameDate.isEmpty then
      Except.ok (false, ledger)
    else
      match oracle newInc sameDate with
      | Except.error e => Except.error e
      | Except.ok resp =>
        if respIsTrue resp then
          -- Merge sources into every same-date record (lines 311-316).
          Except.ok (true, mergeSameDate newInc ledger)
        else
          Except.ok (false, ledger)

/-- The structured response of the extraction chat call: `raw` is
`response.choices[0].message.content`, `parsed` the outcome of
`json.loads` on the stripped text (`none` = parse exception, caught at
monitor_news.py:191-193). -/
structure LlmReply where
  raw : String
  parsed : Option Incident

/-- The tail of `parse_with_llm(article_text, url, source_name)` after the
chat call returned (monitor_news.py:178-193): "null" → None, unparseable →
None, else append `{url, name}` to `sources` when `url` is absent. -/
def parse_with_llm (reply : LlmReply) (url sourceName : String) :
    Option Incident :=
  let result := pyStrip reply.raw
  if pyLower result == "null" then none
  else
    match reply.parsed with
    | none => none
    | some incident =>
      if incident.sources.any (fun s => s.url == url) then some incident
      else some { incident with
                  sources := incident.sources ++ [⟨url, sourceName⟩] }

/-- The configured cutoff of criterion 3 in the extraction prompt:
"Der Vorfall geschah nach dem 20. Dezember 2024" (monitor_news.py:142). -/
def cutoffDate : String :=
  "2024-12-20"

/-- Test that the first list is a prefix of the second, on character lists. -/
def charsStartWith : List Char → List Char → Bool
  | [], _ => true
  | _ :: _, [] => false
  | c :: cs, d :: ds => c == d && charsStartWith cs ds

/-- Python's substring test `pat in s`, on character lists. -/
def charsContain (pat : List Char) : List Char → Bool
  | [] => charsStartWith pat []
  | d :: ds => charsStartWith pat (d :: ds) || charsContain pat ds

/-- Python's substring test `keyword in text`. -/
def strContains (s pat : String) : Bool :=
  charsContain pat.data s.data

/-- A feed entry as consumed by the main loop: `entry.title`,
`getattr(entry, 'description', '')`, `entry.link`. -/
structure Article where
  title : String
  description : String
  link : String
deriving DecidableEq, Repr

/-- One entry of `SOURCES` together with its (already fetched and parsed)
feed entries; a feed whose fetch or parse failed is skipped by the
per-feed handler (monitor_news.py:363-372, 400-402) and is modelled as
having no articles. -/
structure Feed where
  name : String
  keywords : List String
  articles : List Article
deriving Repr

/-- The keyword list shared by all five `SOURCES` entries
(monitor_news.py:16-25). -/
def defaultKeywords : List String :=
  ["magdeburg", "rassistisch", "fremdenfeindlich", "ausländerfeindlich",
   "hassverbrechen", "übergriff", "angriff migranten", "rassismus"]

/-- The keyword pre-filter (monitor_news.py:376-378): some keyword occurs
in the lowercased title or the lowercased description. -/
def matchesKeywords (keywords : List String) (a : Article) : Bool :=
  keywords.any (fun k =>
    strContains (pyLower a.title) k || strContains (pyLower a.description) k)

/-- The external world of one run: article-body extraction
(`extract_text_from_article`, returning `none` on fetch error or missing
container), the extraction chat call (`Except.error` = raised API
exception), the comparison chat call, and `datetime.utcnow`. -/
structure Env where
  extractText : String → Option String
  llmExtract : String → Except String LlmReply
  compareOracle : CompareOracle
  nowIso : String

/-- The mutable state of `main`'s loop: `current_data['incidents']`
(mutated in place by merges), `new_incidents`, `articles_checked`,
`keywords_matched`. -/
structure RunState where
  ledger : List Incident
  newIncidents : List Incident
  articlesChecked : Nat
  keywordsMatched : Nat
deriving DecidableEq, Repr

/-- The body of the inner entry loop (monitor_news.py:374-398) for one
feed entry.  The per-article `try`/`except` catches exceptions of the
extraction and comparison calls and continues, dropping the candidate. -/
def processArticle (env : Env) (keywords : List String) (sourceName : String)
    (st : RunState) (a : Article) : RunState :=
  let st1 : RunState := { st with articlesChecked := st.articlesChecked + 1 }
  if matchesKeywords keywords a then
    let st2 : RunState :=
      { st1 with keywordsMatched := st1.keywordsMatched + 1 }
    match env.extractText a.link with
    | none => st2
    | some text =>
      -- `if not article_text: continue` (line 385): None or empty string.
      if text == "" then st2
      else
        match env.llmExtract text with
        | Except.error _ => st2
        | Except.ok reply =>
          match parse_with_llm reply a.link sourceName with
          | none => st2
          | some incident =>
            match is_duplicate env.compareOracle incident st2.ledger with
            | Except.error _ => st2
            | Except.ok (dup, ledger2) =>
              if dup then { st2 with ledger := ledger2 }
              else { st2 with
                     ledger := ledger2
                     newIncidents := st2.newIncidents ++ [incident] }
  else st1

/-- All feeds processed in order (monitor_news.py:361-402). -/
def runFeeds (env : Env) (feeds : List Feed) (st : RunState) : RunState :=
  feeds.foldl
    (fun acc feed =>
      feed.articles.foldl (processArticle env feed.keywords feed.name) acc)
    st

/-- The environment-variable configuration of a run. -/
structure Config where
  openaiKey : Option String
  githubRepo : Option String
  githubToken : Option String

/-- Python truthiness of `os.environ.get(...)`: set and non-empty. -/
def optTruthy (o : Option String) : Bool :=
  !(o.getD "" == "")

/-- Embedding of `create_pull_request` (monitor_news.py:195-263),
abstracted to the ledger document it proposes: it returns early when
`GITHUB_REPOSITORY` or `GITHUB_TOKEN` is falsy, and otherwise uploads the
content it reads back from the persisted `data/incidents.json` (line 231)
— the GitHub API round trips themselves are abstracted as succeeding. -/
def create_pull_request (cfg : Config) (persistedFile : LedgerDoc) :
    Option LedgerDoc :=
  if optTruthy cfg.githubRepo && optTruthy cfg.githubToken then
    some persistedFile
  else
    none

/-- The observable outcome of `main`.  When `aborted` is true the run
stopped at the credential check before loading the ledger or touching any
article; `state`, `memDoc` then hold their initial/neutral values.
`memDoc` is `current_data` as left in memory, `persisted` the on-disk
`data/incidents.json` after the run (the script never writes it). -/
structure RunResult where
  aborted : Bool
  state : RunState
  memDoc : LedgerDoc
  persisted : LedgerDoc
  proposal : Option LedgerDoc
deriving Repr

/-- Embedding of `main()` (monitor_news.py:341-417), from the configuration, the
pre-fetched feeds and the persisted ledger document. -/
def main (env : Env) (cfg : Config) (feeds : List Feed)
    (fileDoc : LedgerDoc) : RunResult :=
  -- Credential check (lines 346-352): unset/empty or non-"sk-" key aborts.
  if !(optTruthy cfg.openaiKey) then
    { aborted := true, state := ⟨[], [], 0, 0⟩, memDoc := fileDoc,
      persisted := fileDoc, proposal := none }
  else if !(charsStartWith "sk-".data (cfg.openaiKey.getD "").data) then
    { aborted := true, state := ⟨[], [], 0, 0⟩, memDoc := fileDoc,
      persisted := fileDoc, proposal := none }
  else
    let st0 : RunState := ⟨fileDoc.incidents, [], 0, 0⟩
    let stF := runFeeds env feeds st0
    -- `if new_incidents:` (lines 409-415).
    if stF.newIncidents.isEmpty then
      { aborted := false, state := stF,
        memDoc := ⟨stF.ledger, fileDoc.lastUpdated⟩,
        persisted := fileDoc, proposal := none }
    else
      { aborted := false, state := stF,
        memDoc := ⟨stF.ledger ++ stF.newIncidents, env.nowIso⟩,
        persisted := fileDoc,
        proposal := create_pull_request cfg fileDoc }

/-- Ledger invariant stated by the spec: no two records share a Source
Citation URL (a URL identifies exactly one incident). -/
def UrlUnique (L : List Incident) : Prop :=
  L.Pairwise (fun a b => ∀ u, u ∈ urls a → u ∉ urls b)

instance {ε α : Type} [DecidableEq ε] [DecidableEq α] :
    DecidableEq (Except ε α) :=
  fun a b =>
    match a, b with
    | Except.error e, Except.error f =>
      if h : e = f then isTrue (by rw [h]) else isFalse (by simp [h])
    | Except.ok x, Except.ok y =>
      if h : x = y then isTrue (by rw [h]) else isFalse (by simp [h])
    | Except.error _, Except.ok _ => isFalse (by simp)
    | Except.ok _, Except.error _ => isFalse (by simp)

instance (L : List Incident) : Decidable (UrlUnique L) := by
  unfold UrlUnique
  have : DecidableRel (fun a b : Incident => ∀ u, u ∈ urls a → u ∉ urls b) :=
    fun a b => List.decidableBAll _ (urls a)
  exact List.instDecidablePairwise L

/-! ### Concrete scenario data

Fixed inputs used by witnesses and counterexamples below. -/

/-- A stubbed comparison oracle that always answers "true". -/
def oracleTrue : CompareOracle := fun _ _ => Except.ok "true"

/-- A stubbed comparison oracle that always answers "false". -/
def oracleFalse : CompareOracle := fun _ _ => Except.ok "false"

/-- A stubbed comparison oracle whose chat call always raises. -/
def oracleDown : CompareOracle := fun _ _ => Except.error "APIConnectionError"

/-- A ledger record with a single MDR citation. -/
def recA : Incident :=
  ⟨"2025-01-05", "Hauptbahnhof", "Angriff am Bahnhof, Polizei informiert",
   "physical_attack", "verified",
   [⟨"https://mdr.example/a1", "MDR Sachsen-Anhalt"⟩]⟩

/-- A candidate sharing one citation URL with `recA` and adding a second,
fresh URL. -/
def candA : Incident :=
  ⟨"2025-01-05", "Hauptbahnhof", "Angriff am Bahnhof",
   "physical_attack", "verified",
   [⟨"https://mdr.example/a1", "MDR Sachsen-Anhalt"⟩,
    ⟨"https://taz.example/a2", "taz"⟩]⟩

/-- First of two same-date ledger records with disjoint citations. -/
def recB1 : Incident :=
  ⟨"2025-02-10", "Alter Markt", "Beleidigung am Markt", "verbal_attack",
   "verified", [⟨"https://mdr.example/b1", "MDR Sachsen-Anhalt"⟩]⟩

/-- Second of two same-date ledger records with disjoint citations. -/
def recB2 : Incident :=
  ⟨"2025-02-10", "Stadtpark", "Sachbeschädigung im Park", "property_damage",
   "verified", [⟨"https://taz.example/b2", "taz"⟩]⟩

/-- A candidate on the shared date of `recB1`/`recB2` with a fresh URL. -/
def candB : Incident :=
  ⟨"2025-02-10", "Alter Markt", "Beleidigung am Alten Markt", "verbal_attack",
   "verified", [⟨"https://sz.example/b3", "sz"⟩]⟩

/-- A candidate whose date matches no record of the ledgers above. -/
def candD : Incident :=
  ⟨"2025-03-01", "Innenstadt", "Vorfall in der Innenstadt", "other",
   "unverified", [⟨"https://sz.example/d1", "sz"⟩]⟩

/-- A ledger record sharing its date with `candC`, citations disjoint. -/
def recC : Incident :=
  ⟨"2025-02-10", "Stadtfeld", "Angriff, Polizei ermittelt",
   "physical_attack", "verified", [⟨"https://taz.example/c0", "taz"⟩]⟩

/-- A candidate extracted from `artC`, same date as `recC`, fresh URL. -/
def candC : Incident :=
  ⟨"2025-02-10", "Stadtfeld", "Angriff auf Passanten, Polizei ermittelt",
   "physical_attack", "verified",
   [⟨"https://mdr.example/c1", "MDR Sachsen-Anhalt"⟩]⟩

/-- A keyword-matching feed entry for the `candC` scenario. -/
def artC : Article :=
  ⟨"rassistischer angriff in magdeburg", "", "https://mdr.example/c1"⟩

/-- Environment of the `candC` run: body extraction and LLM extraction
succeed, the comparison chat call raises. -/
def envC6 : Env :=
  ⟨fun _ => some "Artikeltext zum Vorfall",
   fun _ => Except.ok ⟨"antwort", some candC⟩,
   oracleDown, "2025-02-11T00:00:00Z"⟩

/-- Run state holding the loaded ledger of the `candC` scenario. -/
def stC0 : RunState := ⟨[recC], [], 0, 0⟩

/-- First feed entry of the two-article same-event run. -/
def art1 : Article :=
  ⟨"rassistischer angriff in magdeburg", "", "https://mdr.example/e1"⟩

/-- Second feed entry of the two-article same-event run: same event as
`art1`, different publisher and URL. -/
def art2 : Article :=
  ⟨"zeugen berichten von angriff in magdeburg", "", "https://taz.example/e2"⟩

/-- Candidate extracted from `art1`. -/
def inc1 : Incident :=
  ⟨"2025-01-05", "Domplatz", "Angriff auf einen Passanten, Polizei informiert",
   "physical_attack", "verified",
   [⟨"https://mdr.example/e1", "MDR Sachsen-Anhalt"⟩]⟩

/-- Candidate extracted from `art2`: same event and date as `inc1`,
different source URL. -/
def inc2 : Incident :=
  ⟨"2025-01-05", "Domplatz", "Angriff auf einen Passanten, mehrere Zeugen",
   "physical_attack", "verified", [⟨"https://taz.example/e2", "taz"⟩]⟩

/-- Environment of the two-article run.  The comparison oracle answers
"true" unconditionally, so any same-date comparison that were made would
report a duplicate. -/
def envC1 : Env :=
  ⟨fun link => some ("Text zu " ++ link),
   fun text =>
     if text == "Text zu https://mdr.example/e1" then
       Except.ok ⟨"antwort eins", some inc1⟩
     else
       Except.ok ⟨"antwort zwei", some inc2⟩,
   oracleTrue, "2025-01-06T00:00:00Z"⟩

/-- The single feed of the two-article run. -/
def feedsC1 : List Feed :=
  [⟨"MDR Sachsen-Anhalt", defaultKeywords, [art1, art2]⟩]

/-- The persisted ledger document at the start of the two-article run:
no incidents yet. -/
def docC1 : LedgerDoc := ⟨[], "2025-01-01T00:00:00Z"⟩

/-- A configuration with all credentials present and well-formed. -/
def cfgC1 : Config := ⟨some "sk-test123", some "owner/repo", some "ghp-token"⟩

/-- A configuration with a valid API key but no repository token. -/
def cfgNoToken : Config := ⟨some "sk-test123", some "owner/repo", none⟩

/-- A configuration with no API key. -/
def cfgNoKey : Config := ⟨none, some "owner/repo", some "ghp-token"⟩

/-- The extraction reply of the pre-cutoff scenario: a structured incident
whose date lies before the configured cutoff. -/
def badInc : Incident :=
  ⟨"2024-11-01", "Innenstadt", "Angriff in der Innenstadt, Polizei informiert",
   "physical_attack", "verified",
   [⟨"https://mdr.example/d1", "MDR Sachsen-Anhalt"⟩]⟩

/-- The raw chat reply carrying `badInc` as its parsed JSON. -/
def badReply : LlmReply :=
  ⟨"\x7b \"date\": \"2024-11-01\" \x7d", some badInc⟩

/-! ### Helper lemmas about the deduplication paths -/

/-- Some citation URL shared between the candidate and a ledger record
makes the first loop of `is_duplicate` fire. -/
theorem any_overlap_of_shared_url {cand : Incident} {L : List Incident}
    (h : ∃ t ∈ cand.sources, ∃ r ∈ L, ∃ s ∈ r.sources, s.url = t.url) :
    L.any (fun r => urlOverlap r cand) = true := by
  rcases h with ⟨t, ht, r, hr, s, hs, heq⟩
  rw [List.any_eq_true]
  refine ⟨r, hr, ?_⟩
  unfold urlOverlap
  rw [List.any_eq_true]
  refine ⟨s.url, List.mem_map.mpr ⟨s, hs, rfl⟩, ?_⟩
  rw [heq]
  exact List.elem_iff.mpr (List.mem_map.mpr ⟨t, ht, rfl⟩)

/-- With no URL overlap, every candidate URL is fresh to every record. -/
theorem no_overlap_disjoint {cand : Incident} {L : List Incident}
    (h : L.any (fun r => urlOverlap r cand) = false) :
    ∀ r ∈ L, ∀ u, u ∈ urls r → u ∉ urls cand := by
  intro r hr u hu hu'
  rw [List.any_eq_false] at h
  apply h r hr
  unfold urlOverlap
  rw [List.any_eq_true]
  exact ⟨u, hu, List.elem_iff.mpr hu'⟩

/-- The first loop of `is_duplicate`: URL overlap returns True at once,
with the ledger untouched, for every oracle. -/
theorem is_duplicate_overlap_eq {oracle : CompareOracle} {cand : Incident}
    {L : List Incident} (h1 : L.any (fun r => urlOverlap r cand) = true) :
    is_duplicate oracle cand L = Except.ok (true, L) := by
  unfold is_duplicate
  simp [h1]

/-- With no URL overlap and no same-date record, the candidate is NEW and
the oracle is never consulted. -/
theorem is_duplicate_no_same_date_eq {oracle : CompareOracle}
    {cand : Incident} {L : List Incident}
    (h1 : L.any (fun r => urlOverlap r cand) = false)
    (h2 : (L.filter (fun inc => inc.date == cand.date)).isEmpty = true) :
    is_duplicate oracle cand L = Except.ok (false, L) := by
  unfold is_duplicate
  simp [h1, h2]

/-- With no URL overlap and some same-date record, a comparison response
decides: "true" merges into every same-date record, anything else is NEW. -/
theorem is_duplicate_resp_eq {oracle : CompareOracle} {cand : Incident}
    {L : List Incident} {resp : String}
    (h1 : L.any (fun r => urlOverlap r cand) = false)
    (h2 : (L.filter (fun inc => inc.date == cand.date)).isEmpty = false)
    (ho : oracle cand (L.filter (fun inc => inc.date == cand.date)) =
      Except.ok resp) :
    is_duplicate oracle cand L =
      (if respIsTrue resp then Except.ok (true, mergeSameDate cand L)
       else Except.ok (false, L)) := by
  unfold is_duplicate
  simp [h1, h2, ho]

/-- With no URL overlap and some same-date record, an exception of the
comparison call propagates out of `is_duplicate`. -/
theorem is_duplicate_error_eq {oracle : CompareOracle} {cand : Incident}
    {L : List Incident} {e : String}
    (h1 : L.any (fun r => urlOverlap r cand) = false)
    (h2 : (L.filter (fun inc => inc.date == cand.date)).isEmpty = false)
    (ho : oracle cand (L.filter (fun inc => inc.date == cand.date)) =
      Except.error e) :
    is_duplicate oracle cand L = Except.error e := by
  unfold is_duplicate
  simp [h1, h2, ho]

/-- Inversion: the three shapes a successful classification can take. -/
theorem is_duplicate_ok_inv {oracle : CompareOracle} {cand : Incident}
    {L L' : List Incident} {b : Bool}
    (h : is_duplicate oracle cand L = Except.ok (b, L')) :
    (b = true ∧ L' = L ∧ L.any (fun r => urlOverlap r cand) = true) ∨
    (b = false ∧ L' = L ∧ L.any (fun r => urlOverlap r cand) = false) ∨
    (b = true ∧ L' = mergeSameDate cand L ∧
      L.any (fun r => urlOverlap r cand) = false) := by
  unfold is_duplicate at h
  by_cases h1 : L.any (fun r => urlOverlap r cand) = true
  · left
    simp [h1] at h
    exact ⟨h.1, h.2.symm, h1⟩
  · rw [Bool.not_eq_true] at h1
    simp only [h1, Bool.false_eq_true, if_false] at h
    by_cases h2 : (L.filter (fun inc => inc.date == cand.date)).isEmpty = true
    · right; left
      simp [h2] at h
      exact ⟨h.1, h.2.symm, h1⟩
    · rw [Bool.not_eq_true] at h2
      simp only [h2, Bool.false_eq_true, if_false] at h
      cases ho : oracle cand (L.filter (fun inc => inc.date == cand.date)) with
      | error e => rw [ho] at h; exact absurd h (by simp)
      | ok resp =>
        rw [ho] at h
        by_cases h3 : respIsTrue resp = true
        · right; right
          simp [h3] at h
          exact ⟨h.1, h.2.symm, h1⟩
        · rw [Bool.not_eq_true] at h3
          right; left
          simp [h3] at h
          exact ⟨h.1, h.2.symm, h1⟩

/-- The merge only adds URLs that come from the record or the candidate. -/
theorem mem_urls_mergeInto {cand r : Incident} {u : String}
    (h : u ∈ urls (mergeInto cand r)) : u ∈ urls r ∨ u ∈ urls cand := by
  unfold mergeInto at h
  unfold urls at h ⊢
  simp only [List.map_append, List.mem_append] at h
  rcases h with h | h
  · exact Or.inl h
  · right
    rcases List.mem_map.mp h with ⟨s, hs, rfl⟩
    exact List.mem_map.mpr ⟨s, (List.mem_filter.mp hs).1, rfl⟩

/-- After a merge, every candidate citation URL is present in the record. -/
theorem cand_url_mem_mergeInto {cand r : Incident} {s : Source}
    (hs : s ∈ cand.sources) : s.url ∈ urls (mergeInto cand r) := by
  by_cases hc : s.url ∈ urls r
  · unfold mergeInto
    unfold urls at hc ⊢
    simp only [List.map_append, List.mem_append]
    exact Or.inl hc
  · unfold mergeInto
    unfold urls at hc ⊢
    simp only [List.map_append, List.mem_append]
    right
    refine List.mem_map.mpr ⟨s, List.mem_filter.mpr ⟨hs, ?_⟩, rfl⟩
    rw [Bool.not_eq_true']
    rw [← Bool.not_eq_true]
    intro hcon
    exact hc (List.elem_iff.mp hcon)

/-- Records touched only by the source merge keep all other fields. -/
theorem mergeInto_fields (cand r : Incident) :
    (mergeInto cand r).date = r.date ∧
    (mergeInto cand r).location = r.location ∧
    (mergeInto cand r).description = r.description ∧
    (mergeInto cand r).type = r.type ∧
    (mergeInto cand r).status = r.status ∧
    (mergeInto cand r).sources =
      r.sources ++ cand.sources.filter (fun s => !((urls r).contains s.url)) :=
  ⟨rfl, rfl, rfl, rfl, rfl, rfl⟩

/-- A source kept by the merge filter is a candidate source with a URL
that the record did not already carry. -/
theorem merge_filter_sound {cand r : Incident} {s : Source}
    (h : s ∈ cand.sources.filter (fun s => !((urls r).contains s.url))) :
    s ∈ cand.sources ∧ s.url ∉ urls r := by
  rcases List.mem_filter.mp h with ⟨h1, h2⟩
  refine ⟨h1, fun hmem => ?_⟩
  rw [Bool.not_eq_true'] at h2
  have h3 : (urls r).contains s.url = true := List.elem_iff.mpr hmem
  rw [h2] at h3
  cases h3

/-- Merging into every same-date record preserves URL uniqueness when at
most one record carries the candidate's date and no candidate URL is
already present. -/
theorem urlUnique_mergeSameDate {cand : Incident} :
    ∀ {L : List Incident}, UrlUnique L →
    (∀ r ∈ L, ∀ u, u ∈ urls r → u ∉ urls cand) →
    (L.filter (fun r => r.date == cand.date)).length ≤ 1 →
    UrlUnique (mergeSameDate cand L) := by
  intro L
  induction L with
  | nil =>
    intro _ _ _
    simp [mergeSameDate, UrlUnique]
  | cons r L ih =>
    intro hU hd hc
    unfold UrlUnique at hU ⊢
    rw [List.pairwise_cons] at hU
    obtain ⟨hhead, htail⟩ := hU
    unfold mergeSameDate
    simp only [List.map_cons]
    by_cases hrd : (r.date == cand.date) = true
    · rw [if_pos hrd]
      have hfl : L.filter (fun x => x.date == cand.date) = [] := by
        simp only [List.filter_cons, hrd, if_true, List.length_cons] at hc
        exact List.length_eq_zero.mp (Nat.le_zero.mp (Nat.le_of_succ_le_succ hc))
      have hmapid :
          L.map (fun existing =>
            if (existing.date == cand.date) = true then mergeInto cand existing
            else existing) = L := by
        have hne := List.filter_eq_nil_iff.mp hfl
        calc L.map (fun existing =>
                if (existing.date == cand.date) = true then
                  mergeInto cand existing
                else existing)
            = L.map id := by
              apply List.map_eq_map_iff.mpr
              intro x hx
              simp [hne x hx]
          _ = L := List.map_id L
      rw [List.pairwise_cons, hmapid]
      refine ⟨?_, htail⟩
      intro b hb u hu
      rcases mem_urls_mergeInto hu with h | h
      · exact hhead b hb u h
      · intro hub
        exact hd b (List.mem_cons_of_mem r hb) u hub h
    · rw [if_neg hrd]
      have hc' : (L.filter (fun x => x.date == cand.date)).length ≤ 1 := by
        rw [Bool.not_eq_true] at hrd
        simp only [List.filter_cons, hrd, Bool.false_eq_true, if_false] at hc
        exact hc
      rw [List.pairwise_cons]
      constructor
      · intro b' hb' u hu hub'
        rcases List.mem_map.mp hb' with ⟨x, hx, rfl⟩
        by_cases hxd : (x.date == cand.date) = true
        · rw [if_pos hxd] at hub'
          rcases mem_urls_mergeInto hub' with h | h
          · exact hhead x hx u hu h
          · exact hd r (List.mem_cons_self r L) u hu h
        · rw [if_neg hxd] at hub'
          exact hhead x hx u hu hub'
      · exact ih htail (fun x hx => hd x (List.mem_cons_of_mem r hx)) hc'

/-- Appending a record with entirely fresh URLs preserves uniqueness. -/
theorem urlUnique_append {L : List Incident} {cand : Incident}
    (hU : UrlUnique L)
    (hd : ∀ r ∈ L, ∀ u, u ∈ urls r → u ∉ urls cand) :
    UrlUnique (L ++ [cand]) := by
  unfold UrlUnique at hU ⊢
  rw [List.pairwise_append]
  refine ⟨hU, by simp, ?_⟩
  intro a ha b hb
  rw [List.mem_singleton] at hb
  subst hb
  exact fun u hua hub => hd a ha u hua hub

/-! ### Claim theorems -/

/-- C2: if any Source Citation URL of the candidate already appears in the
sources of some ledger record, `is_duplicate` answers DUPLICATE (True)
with the ledger untouched, and this holds for every comparison oracle —
in particular the semantic oracle is never consulted: even an oracle whose
chat call would raise cannot change the outcome. -/
theorem c2_exact_citation_short_circuit (oracle : CompareOracle)
    (cand : Incident) (L : List Incident)
    (h : ∃ t ∈ cand.sources, ∃ r ∈ L, ∃ s ∈ r.sources, s.url = t.url) :
    is_duplicate oracle cand L = Except.ok (true, L) :=
  is_duplicate_overlap_eq (any_overlap_of_shared_url h)

/-- Witness for C2, with the always-raising oracle: the exact-citation
duplicate is still classified deterministically. -/
theorem c2_exact_citation_short_circuit_witness :
    is_duplicate oracleDown candA [recA] = Except.ok (true, [recA]) :=
  c2_exact_citation_short_circuit oracleDown candA [recA] (by decide)

/-- C10: whenever classification answers NEW (False), the ledger value
returned is exactly the ledger passed in — no record was merged on any of
the NEW-returning paths.  (In this functional embedding the candidate
cannot be mutated; the Python code likewise never writes to
`new_incident`.) -/
theorem c10_new_leaves_ledger_unchanged (oracle : CompareOracle)
    (cand : Incident) (L L' : List Incident)
    (h : is_duplicate oracle cand L = Except.ok (false, L')) :
    L' = L ∧ is_duplicate oracle cand L = Except.ok (false, L) := by
  rcases is_duplicate_ok_inv h with ⟨hb, _, _⟩ | ⟨_, hL, _⟩ | ⟨hb, _, _⟩
  · exact Bool.noConfusion hb
  · refine ⟨hL, ?_⟩
    rw [hL] at h
    exact h
  · exact Bool.noConfusion hb

/-- Witness for C10: a candidate with a fresh date is NEW and the returned
ledger equals the input ledger. -/
theorem c10_new_leaves_ledger_unchanged_witness :
    [recB1] = [recB1] ∧
    is_duplicate oracleFalse candD [recB1] = Except.ok (false, [recB1]) :=
  c10_new_leaves_ledger_unchanged oracleFalse candD [recB1] [recB1]
    (by decide)

/-- C5: every successful classification relates input and output ledgers
record by record: `date`, `location`, `description`, `type` (and
`status`) are never altered, the previous source list stays as an
untouched prefix, and everything appended is a candidate citation whose
URL the record did not already carry — source growth is union by URL. -/
theorem c5_merge_frame (oracle : CompareOracle) (cand : Incident)
    (L L' : List Incident) (b : Bool)
    (h : is_duplicate oracle cand L = Except.ok (b, L')) :
    List.Forall₂ (fun r r' =>
      r'.date = r.date ∧ r'.location = r.location ∧
      r'.description = r.description ∧ r'.type = r.type ∧
      r'.status = r.status ∧
      ∃ extra, r'.sources = r.sources ++ extra ∧
        ∀ s ∈ extra, s ∈ cand.sources ∧ s.url ∉ urls r) L L' := by
  have hid : ∀ M : List Incident,
      List.Forall₂ (fun r r' =>
        r'.date = r.date ∧ r'.location = r.location ∧
        r'.description = r.description ∧ r'.type = r.type ∧
        r'.status = r.status ∧
        ∃ extra, r'.sources = r.sources ++ extra ∧
          ∀ s ∈ extra, s ∈ cand.sources ∧ s.url ∉ urls r) M M := by
    intro M
    refine List.forall₂_same.mpr (fun x _ => ?_)
    exact ⟨rfl, rfl, rfl, rfl, rfl, [], by simp, by simp⟩
  rcases is_duplicate_ok_inv h with ⟨_, hL, _⟩ | ⟨_, hL, _⟩ | ⟨_, hL, _⟩
  · subst hL; exact hid _
  · subst hL; exact hid _
  · subst hL
    unfold mergeSameDate
    rw [List.forall₂_map_right_iff]
    refine List.forall₂_same.mpr (fun x _ => ?_)
    by_cases hx : (x.date == cand.date) = true
    · rw [if_pos hx]
      refine ⟨rfl, rfl, rfl, rfl, rfl,
        cand.sources.filter (fun s => !((urls x).contains s.url)), rfl, ?_⟩
      exact fun s hs => merge_filter_sound hs
    · rw [if_neg hx]
      exact ⟨rfl, rfl, rfl, rfl, rfl, [], by simp, by simp⟩

/-- Witness for C5 on the single-same-date merge scenario. -/
theorem c5_merge_frame_witness :
    List.Forall₂ (fun r r' =>
      r'.date = r.date ∧ r'.location = r.location ∧
      r'.description = r.description ∧ r'.type = r.type ∧
      r'.status = r.status ∧
      ∃ extra, r'.sources = r.sources ++ extra ∧
        ∀ s ∈ extra, s ∈ candB.sources ∧ s.url ∉ urls r)
      [recB1] [mergeInto candB recB1] :=
  c5_merge_frame oracleTrue candB [recB1] [mergeInto candB recB1] true
    (by decide)

/-- C3 counterexample: `candA` shares its first URL with ledger record
`recA` and carries a second, fresh URL.  Classification answers DUPLICATE
via the exact-citation check yet returns the ledger unchanged: the fresh
URL is not merged into the matching record, contradicting the claim that
every DUPLICATE merges the missing citation URLs. -/
theorem c3_citation_path_no_merge :
    is_duplicate oracleTrue candA [recA] = Except.ok (true, [recA]) ∧
    "https://taz.example/a2" ∈ urls candA ∧
    "https://taz.example/a2" ∉ urls recA :=
  ⟨by decide, by decide, by decide⟩

/-- C3 amended: only the semantic same-date path merges.  When DUPLICATE
is returned with no exact-citation URL overlap, every citation URL of the
candidate ends up in every same-date record of the returned ledger (the
counterexample shows the exact-citation path merges nothing). -/
theorem c3_semantic_dup_merges_all_urls (oracle : CompareOracle)
    (cand r' : Incident) (L L' : List Incident) (s : Source)
    (hov : L.any (fun r => urlOverlap r cand) = false)
    (h : is_duplicate oracle cand L = Except.ok (true, L'))
    (hr : r' ∈ L') (hd : r'.date = cand.date) (hs : s ∈ cand.sources) :
    s.url ∈ urls r' := by
  rcases is_duplicate_ok_inv h with ⟨_, _, hov'⟩ | ⟨hb, _, _⟩ | ⟨_, hL, _⟩
  · rw [hov] at hov'
    cases hov'
  · exact Bool.noConfusion hb
  · subst hL
    unfold mergeSameDate at hr
    rcases List.mem_map.mp hr with ⟨x, hx, rfl⟩
    by_cases hxd : (x.date == cand.date) = true
    · rw [if_pos hxd]
      exact cand_url_mem_mergeInto hs
    · rw [if_neg hxd] at hd ⊢
      exact absurd (beq_iff_eq.mpr hd) hxd

/-- Witness for C3's amended theorem: after the semantic merge the
candidate's URL is present in the same-date record. -/
theorem c3_semantic_dup_merges_all_urls_witness :
    (⟨"https://sz.example/b3", "sz"⟩ : Source).url ∈
      urls (mergeInto candB recB1) :=
  c3_semantic_dup_merges_all_urls oracleTrue candB (mergeInto candB recB1)
    [recB1] [mergeInto candB recB1] ⟨"https://sz.example/b3", "sz"⟩
    (by decide) (by decide) (by decide) (by decide) (by decide)

/-- C4 counterexample: with two same-date records satisfying the
URL-uniqueness invariant, a semantic DUPLICATE writes the candidate's
fresh URL into both records — not into exactly one, first-match record —
and the invariant is broken afterwards. -/
theorem c4_merge_breaks_url_uniqueness :
    UrlUnique [recB1, recB2] ∧
    is_duplicate oracleTrue candB [recB1, recB2] =
      Except.ok (true, [mergeInto candB recB1, mergeInto candB recB2]) ∧
    "https://sz.example/b3" ∈ urls (mergeInto candB recB1) ∧
    "https://sz.example/b3" ∈ urls (mergeInto candB recB2) ∧
    ¬ UrlUnique [mergeInto candB recB1, mergeInto candB recB2] :=
  ⟨by decide, by decide, by decide, by decide, by decide⟩

/-- C4 amended: the merge is written into every same-date record, so one
classify step (merge on DUPLICATE, the caller's append on NEW) preserves
URL uniqueness only under the proviso that at most one ledger record
carries the candidate's date; with two or more it can break (see the
counterexample). -/
theorem c4_invariant_preserved_single_match (oracle : CompareOracle)
    (cand : Incident) (L L' : List Incident) (b : Bool)
    (hU : UrlUnique L)
    (hc : (L.filter (fun r => r.date == cand.date)).length ≤ 1)
    (h : is_duplicate oracle cand L = Except.ok (b, L')) :
    UrlUnique L' ∧ (b = false → UrlUnique (L' ++ [cand])) := by
  rcases is_duplicate_ok_inv h with ⟨hb, hL, _⟩ | ⟨hb, hL, hov⟩ | ⟨hb, hL, hov⟩
  · subst hL
    refine ⟨hU, fun hf => ?_⟩
    rw [hb] at hf
    exact Bool.noConfusion hf
  · subst hL
    exact ⟨hU, fun _ => urlUnique_append hU (no_overlap_disjoint hov)⟩
  · subst hL
    refine ⟨urlUnique_mergeSameDate hU (no_overlap_disjoint hov) hc,
      fun hf => ?_⟩
    rw [hb] at hf
    exact Bool.noConfusion hf

/-- Witness for C4's amended theorem: a single-same-date merge and a
fresh-date append, each preserving the invariant. -/
theorem c4_invariant_preserved_single_match_witness :
    UrlUnique [mergeInto candB recB1] ∧ UrlUnique ([recB1] ++ [candD]) :=
  ⟨(c4_invariant_preserved_single_match oracleTrue candB [recB1]
      [mergeInto candB recB1] true (by decide) (by decide) (by decide)).1,
   (c4_invariant_preserved_single_match oracleFalse candD [recB1]
      [recB1] false (by decide) (by decide) (by decide)).2 rfl⟩

/-- C6 counterexample: with a same-date record present and the comparison
chat call raising an API error, `is_duplicate` raises instead of
answering, and the per-article handler of `main` drops the article: the
run state gains no NEW incident — the candidate is dropped, not
"conservatively classified NEW and appended". -/
theorem c6_api_error_drops_candidate :
    is_duplicate oracleDown candC [recC] =
      Except.error "APIConnectionError" ∧
    processArticle envC6 defaultKeywords "MDR Sachsen-Anhalt" stC0 artC =
      ⟨[recC], [], 1, 1⟩ :=
  ⟨by decide, by decide⟩

/-- C6 amended: a comparison response other than the literal boolean
"true" — including malformed text — is treated as not-a-match and the
candidate is classified NEW with the ledger unchanged; an API error,
however, propagates as an exception out of `is_duplicate`, so the caller
skips the article and the candidate is dropped rather than appended. -/
theorem c6_comparison_failure_behavior (oracle : CompareOracle)
    (cand : Incident) (L : List Incident) (resp e : String)
    (hov : L.any (fun r => urlOverlap r cand) = false) :
    (oracle cand (L.filter (fun inc => inc.date == cand.date)) =
        Except.ok resp →
      respIsTrue resp = false →
      is_duplicate oracle cand L = Except.ok (false, L)) ∧
    (oracle cand (L.filter (fun inc => inc.date == cand.date)) =
        Except.error e →
      (L.filter (fun inc => inc.date == cand.date)).isEmpty = false →
      is_duplicate oracle cand L = Except.error e) := by
  constructor
  · intro ho hr
    by_cases h2 : (L.filter (fun inc => inc.date == cand.date)).isEmpty = true
    · exact is_duplicate_no_same_date_eq hov h2
    · rw [Bool.not_eq_true] at h2
      rw [is_duplicate_resp_eq hov h2 ho, hr]
      simp
  · intro ho h2
    exact is_duplicate_error_eq hov h2 ho

/-- Witness for C6's amended theorem: a "false" response classifies NEW
with the ledger unchanged; a raising oracle makes the call raise. -/
theorem c6_comparison_failure_behavior_witness :
    is_duplicate oracleFalse candC [recC] = Except.ok (false, [recC]) ∧
    is_duplicate oracleDown candC [recC] =
      Except.error "APIConnectionError" :=
  ⟨(c6_comparison_failure_behavior oracleFalse candC [recC] "false" "x"
      (by decide)).1 (by decide) (by decide),
   (c6_comparison_failure_behavior oracleDown candC [recC] "y"
      "APIConnectionError" (by decide)).2 (by decide) (by decide)⟩

/-- C8 counterexample: the extractor performs no date check in code — a
structured model response whose date lies before the configured cutoff of
20 December 2024 is returned as an incident record unchanged. -/
theorem c8_precutoff_date_returned :
    parse_with_llm badReply "https://mdr.example/d1" "MDR Sachsen-Anhalt" =
      some badInc ∧
    dateBefore badInc.date cutoffDate = true :=
  ⟨by decide, by decide⟩

/-- C8 amended: the cutoff of criterion 3 lives only in the prompt text;
for every parseable non-"null" structured response, `parse_with_llm`
returns a record carrying exactly the date of the response, with no
validation against the cutoff. -/
theorem c8_date_passthrough (reply : LlmReply) (url sourceName : String)
    (inc : Incident) (hp : reply.parsed = some inc)
    (hn : (pyLower (pyStrip reply.raw) == "null") = false) :
    Option.map Incident.date (parse_with_llm reply url sourceName) =
      some inc.date := by
  unfold parse_with_llm
  simp only [hn, Bool.false_eq_true, if_false, hp]
  by_cases ha : (inc.sources.any (fun s => s.url == url)) = true
  · simp [ha]
  · rw [Bool.not_eq_true] at ha
    simp [ha]

/-- Witness for C8's amended theorem at the pre-cutoff reply. -/
theorem c8_date_passthrough_witness :
    Option.map Incident.date
      (parse_with_llm badReply "https://mdr.example/d1"
        "MDR Sachsen-Anhalt") = some badInc.date :=
  c8_date_passthrough badReply "https://mdr.example/d1"
    "MDR Sachsen-Anhalt" badInc rfl (by decide)

/-- C1 counterexample: a single run over two feed entries describing the
same brand-new event (same date, different URLs) on an empty ledger
classifies both candidates NEW — the second is not deduplicated against
the first — and ends with two one-citation records in the final document
instead of one record carrying both citations. -/
theorem c1_two_new_for_same_event_in_one_run :
    (main envC1 cfgC1 feedsC1 docC1).state.newIncidents = [inc1, inc2] ∧
    (main envC1 cfgC1 feedsC1 docC1).memDoc.incidents = [inc1, inc2] ∧
    inc1.date = inc2.date ∧
    urls inc1 = ["https://mdr.example/e1"] ∧
    urls inc2 = ["https://taz.example/e2"] :=
  ⟨by decide, by decide, by decide, by decide, by decide⟩

/-- C1 amended: within a run, records already classified NEW are invisible
to deduplication.  Processing an article reads and updates only the
`ledger` component (the start-of-run ledger with its in-place merges),
while the NEW accumulator is write-only: the state after an article is the
state computed from an empty accumulator, with the old accumulator merely
prepended.  NEW records therefore reach the ledger only when the run
ends, and a second candidate for a brand-new same-date event is again
classified NEW (see the counterexample). -/
theorem c1_new_accumulator_invisible_to_dedup (env : Env)
    (keywords : List String) (sourceName : String)
    (L ns : List Incident) (n1 n2 : Nat) (a : Article) :
    processArticle env keywords sourceName ⟨L, ns, n1, n2⟩ a =
      { processArticle env keywords sourceName ⟨L, [], n1, n2⟩ a with
        newIncidents := ns ++
          (processArticle env keywords sourceName
            ⟨L, [], n1, n2⟩ a).newIncidents } := by
  unfold processArticle
  by_cases hm : matchesKeywords keywords a = true
  · simp only [hm, if_true]
    cases he : env.extractText a.link with
    | none => simp [he]
    | some text =>
      by_cases ht : (text == "") = true
      · simp [he, ht]
      · rw [Bool.not_eq_true] at ht
        simp only [he, ht, Bool.false_eq_true, if_false]
        cases hl : env.llmExtract text with
        | error e => simp [hl]
        | ok reply =>
          cases hp : parse_with_llm reply a.link sourceName with
          | none => simp [hl, hp]
          | some incident =>
            cases hd : is_duplicate env.compareOracle incident L with
            | error e => simp [hl, hp, hd]
            | ok p =>
              rcases p with ⟨dup, ledger2⟩
              by_cases hdup : dup = true
              · simp [hl, hp, hd, hdup]
              · rw [Bool.not_eq_true] at hdup
                simp [hl, hp, hd, hdup]
  · rw [Bool.not_eq_true] at hm
    simp [hm]

/-- C7 counterexample: with a valid API key but no repository token the
run is not aborted — both articles are processed, both candidates are
classified, and only the final change proposal is missing. -/
theorem c7_missing_token_run_completes :
    (main envC1 cfgNoToken feedsC1 docC1).aborted = false ∧
    (main envC1 cfgNoToken feedsC1 docC1).state.articlesChecked = 2 ∧
    (main envC1 cfgNoToken feedsC1 docC1).state.newIncidents =
      [inc1, inc2] ∧
    (main envC1 cfgNoToken feedsC1 docC1).proposal = none :=
  ⟨by decide, by decide, by decide, by decide⟩

/-- C7 amended: only the API-key check aborts the run before any
processing; a missing repository name or token is noticed only inside
`create_pull_request` after all processing — the run completes and merely
produces no change proposal. -/
theorem c7_credential_checks (env : Env) (cfg : Config)
    (feeds : List Feed) (fileDoc : LedgerDoc) :
    (optTruthy cfg.openaiKey = false →
      main env cfg feeds fileDoc =
        ⟨true, ⟨[], [], 0, 0⟩, fileDoc, fileDoc, none⟩) ∧
    (optTruthy cfg.githubToken = false →
      (main env cfg feeds fileDoc).proposal = none) ∧
    (optTruthy cfg.githubRepo = false →
      (main env cfg feeds fileDoc).proposal = none) := by
  have hrun : ∀ hval : Prop, optTruthy cfg.githubToken = false ∨
      optTruthy cfg.githubRepo = false →
      (main env cfg feeds fileDoc).proposal = none := by
    intro _ hcred
    unfold main
    by_cases hk : optTruthy cfg.openaiKey = true
    · simp only [hk, Bool.not_true, Bool.false_eq_true, if_false]
      by_cases hs :
          charsStartWith "sk-".data ((cfg.openaiKey.getD "").data) = true
      · simp only [hs, Bool.not_true, Bool.false_eq_true, if_false]
        by_cases hz :
            (runFeeds env feeds ⟨fileDoc.incidents, [], 0, 0⟩).newIncidents.isEmpty = true
        · simp [hz]
        · rw [Bool.not_eq_true] at hz
          simp only [hz, Bool.false_eq_true, if_false]
          unfold create_pull_request
          rcases hcred with hcred | hcred <;> simp [hcred]
      · rw [Bool.not_eq_true] at hs
        simp [hs]
    · rw [Bool.not_eq_true] at hk
      simp [hk]
  refine ⟨?_, ?_, ?_⟩
  · intro hk
    unfold main
    simp [hk]
  · intro ht
    exact hrun True (Or.inl ht)
  · intro hr
    exact hrun True (Or.inr hr)

/-- Witness for C7's amended theorem: a keyless run aborts with nothing
processed; a tokenless run yields no proposal. -/
theorem c7_credential_checks_witness :
    main envC1 cfgNoKey feedsC1 docC1 =
      ⟨true, ⟨[], [], 0, 0⟩, docC1, docC1, none⟩ ∧
    (main envC1 cfgNoToken feedsC1 docC1).proposal = none :=
  ⟨(c7_credential_checks envC1 cfgNoKey feedsC1 docC1).1 (by decide),
   (c7_credential_checks envC1 cfgNoToken feedsC1 docC1).2.1 (by decide)⟩

/-- C9: a run that classifies zero candidates as NEW produces no change
proposal, leaves the persisted ledger document untouched, and keeps the
in-memory document's `lastUpdated` timestamp.  (The persisted file is in
fact never written by the script itself; the proposal is the only write
path.) -/
theorem c9_no_write_without_new (env : Env) (cfg : Config)
    (feeds : List Feed) (fileDoc : LedgerDoc)
    (hz : (main env cfg feeds fileDoc).state.newIncidents = []) :
    (main env cfg feeds fileDoc).proposal = none ∧
    (main env cfg feeds fileDoc).persisted = fileDoc ∧
    (main env cfg feeds fileDoc).memDoc.lastUpdated =
      fileDoc.lastUpdated := by
  unfold main at hz ⊢
  by_cases hk : optTruthy cfg.openaiKey = true
  · simp only [hk, Bool.not_true, Bool.false_eq_true, if_false] at hz ⊢
    by_cases hs :
        charsStartWith "sk-".data ((cfg.openaiKey.getD "").data) = true
    · simp only [hs, Bool.not_true, Bool.false_eq_true, if_false] at hz ⊢
      by_cases he :
          (runFeeds env feeds ⟨fileDoc.incidents, [], 0, 0⟩).newIncidents.isEmpty = true
      · simp [he]
      · rw [Bool.not_eq_true] at he
        simp only [he, Bool.false_eq_true, if_false] at hz
        rw [hz] at he
        simp at he
    · rw [Bool.not_eq_true] at hs
      simp [hs]
  · rw [Bool.not_eq_true] at hk
    simp [hk]

/-- Witness for C9: a run over no feeds classifies nothing NEW and
produces no proposal and no write. -/
theorem c9_no_write_without_new_witness :
    (main envC1 cfgC1 [] docC1).proposal = none ∧
    (main envC1 cfgC1 [] docC1).persisted = docC1 ∧
    (main envC1 cfgC1 [] docC1).memDoc.lastUpdated = docC1.lastUpdated :=
  c9_no_write_without_new envC1 cfgC1 [] docC1 (by decide)

end MonitorNews
